import Mathlib

/-!
Shallow embedding of the SensoryX hybrid-intelligence core
(`backend/app/services/photon_service.py`,
`backend/app/services/dedalus_orchestrator.py`,
`backend/app/mcp/medical_server.py`) together with theorems settling the
behavioural claims about the escalation policy, the hybrid-session state
machine, the confidence blending, the specialty and condition keyword
extraction, and the specialist-agent error handling.

Python strings are modelled as Lean `String`; Python floats appearing in the
confidence arithmetic are modelled as exact rationals `ℚ`; Python dicts with
optional keys are modelled as structures with `Option` fields whose `getD`
defaults mirror the `dict.get(key, default)` calls of the source.

The file lists all definitions first and all theorems afterwards.
-/

namespace SensoryX

/-- Python `str.lower()` (per-character lowercasing). -/
def lowerStr (s : String) : String := ⟨s.data.map Char.toLower⟩

/-- Python `needle in haystack` on strings: contiguous-substring containment. -/
def isSubstring (needle haystack : String) : Bool :=
  decide (needle.data <:+: haystack.data)

/-- Python `any(word in text for word in words)`. -/
def containsAny (text : String) (words : List String) : Bool :=
  words.any (fun w => isSubstring w text)

/-- Embeds the `CollaborationStage` enum of `photon_service.py`. -/
inductive CollaborationStage
  | ai_analyzing
  | human_review_pending
  | human_reviewing
  | consensus_reached
  | disagreement
  | completed
deriving DecidableEq, Repr

/-- One entry of the `differential_diagnoses` list of an AI analysis. -/
structure Differential where
  condition : String
  probability : ℚ
deriving DecidableEq, Repr

/-- The AI-analysis dict produced by `_get_ai_analysis`; every field that the
core reads is present (the mock analysis of the source always supplies them). -/
structure AIAnalysis where
  symptoms : String
  primary_diagnosis : String
  confidence : ℚ
  differential_diagnoses : List Differential
  urgency_level : String
  recommended_treatment : String
  red_flags : List String
  escalation_reason : String
deriving DecidableEq, Repr

/-- The review dict submitted by a human doctor, merged with the doctor
identity as in `submit_human_review`.  Fields read through `review.get(key,
default)` in the source are `Option`s here. -/
structure HumanReview where
  doctor_id : String
  doctor_name : String
  diagnosis : Option String
  confidence : Option ℚ
  treatment_plan : Option String
  notes : Option String
deriving DecidableEq, Repr

/-- The dict built by `_create_hybrid_recommendation` (fields the claims
inspect). -/
structure HybridRecommendation where
  diagnosis : String
  confidence : ℚ
  treatment_plan : String
  consensus : Bool
deriving DecidableEq, Repr

/-- Value stored in `session.final_recommendation`: either the raw AI analysis
(AI-only path of `start_hybrid_consultation`) or the blended hybrid
recommendation. -/
inductive FinalRec
  | ofAI (a : AIAnalysis)
  | ofHybrid (h : HybridRecommendation)
deriving DecidableEq, Repr

/-- One entry of `session.conversation_history`; the Python entries are dicts
with varying keys, modelled as optional fields defaulting to `none`. -/
structure TranscriptEntry where
  actor : String
  message : Option String := none
  reason : Option String := none
  action : Option String := none
  doctor_name : Option String := none
  agrees_with_ai : Option Bool := none
  entry_type : Option String := none
  patient_message : Option String := none
  priority : Option String := none
deriving DecidableEq, Repr

/-- The mutable state of a `HybridSession` (timestamps elided). -/
structure HybridSession where
  stage : CollaborationStage
  ai_analysis : Option AIAnalysis
  human_review : Option HumanReview
  final_recommendation : Option FinalRec
  conversation_history : List TranscriptEntry
  confidence_ai : ℚ
  confidence_human : ℚ
  confidence_hybrid : ℚ
deriving DecidableEq, Repr

/-- Embeds `HybridSession.__init__`. -/
def HybridSession.init : HybridSession :=
  { stage := CollaborationStage.ai_analyzing
    ai_analysis := none
    human_review := none
    final_recommendation := none
    conversation_history := []
    confidence_ai := 0
    confidence_human := 0
    confidence_hybrid := 0 }

/-- Embeds `_should_escalate_to_human(ai_analysis, urgency)`. -/
def _should_escalate_to_human (ai : AIAnalysis) (urgency : String) : Bool :=
  if ai.confidence < 7/10 then true
  else if urgency = "high" ∨ urgency = "emergency" then true
  else if 0 < ai.red_flags.length then true
  else if 2 < (ai.differential_diagnoses.filter
      (fun d => decide ((1/5 : ℚ) < d.probability))).length then true
  else false

/-- Embeds `_get_ai_analysis(symptoms, patient_data, urgency)`: the mock
multi-agent analysis the source produces (patient data unused by it). -/
def _get_ai_analysis (symptoms urgency : String) : AIAnalysis :=
  { symptoms := symptoms
    primary_diagnosis := "Tension Headache"
    confidence := 78/100
    differential_diagnoses :=
      [{ condition := "Tension Headache", probability := 78/100 },
       { condition := "Migraine", probability := 15/100 },
       { condition := "Sinus Infection", probability := 7/100 }]
    urgency_level := urgency
    recommended_treatment := "Rest, hydration, OTC pain relief"
    red_flags := []
    escalation_reason := "Moderate confidence - human validation recommended" }

/-- The system transcript entry appended by `start_hybrid_consultation` when
escalating. -/
def escalationNotice (ai : AIAnalysis) : TranscriptEntry :=
  { actor := "system"
    message := some "AI analysis complete. Escalating to human doctor for validation."
    reason := some ai.escalation_reason }

/-- Embeds `start_hybrid_consultation(patient_data, symptoms, urgency)`: the
session state at the end of the call (session id, timestamps and the returned
response dict elided; the response mirrors the session fields proved about
here). -/
def start_hybrid_consultation (symptoms urgency : String) : HybridSession :=
  let ai := _get_ai_analysis symptoms urgency
  let s1 : HybridSession :=
    { HybridSession.init with
      ai_analysis := some ai
      stage := CollaborationStage.human_review_pending
      confidence_ai := ai.confidence }
  if _should_escalate_to_human ai urgency then
    { s1 with conversation_history := s1.conversation_history ++ [escalationNotice ai] }
  else
    { s1 with stage := CollaborationStage.completed
              final_recommendation := some (FinalRec.ofAI ai) }

/-- Embeds `_check_consensus(ai_analysis, human_review)`: case-insensitive
substring containment in either direction, the human diagnosis defaulting to
the empty string. -/
def _check_consensus (ai : AIAnalysis) (hr : HumanReview) : Bool :=
  let ai_diagnosis := lowerStr ai.primary_diagnosis
  let human_diagnosis := lowerStr (hr.diagnosis.getD "")
  isSubstring ai_diagnosis human_diagnosis || isSubstring human_diagnosis ai_diagnosis

/-- Python `round(x, 2)` on the exact rational value: scale by 100 and round
half to even, as the Python builtin does. -/
def pyRound2 (q : ℚ) : ℚ :=
  let scaled := q * 100
  let f : ℤ := ⌊scaled⌋
  let r : ℚ := scaled - f
  let n : ℤ :=
    if r < 1/2 then f
    else if 1/2 < r then f + 1
    else if f % 2 = 0 then f else f + 1
  (n : ℚ) / 100

/-- Embeds `_create_hybrid_recommendation(ai_analysis, human_review,
patient_data)` (fields the claims inspect; patient data unused by the source
function). -/
def _create_hybrid_recommendation (ai : AIAnalysis) (hr : HumanReview) : HybridRecommendation :=
  { diagnosis := hr.diagnosis.getD ai.primary_diagnosis
    confidence := pyRound2 (ai.confidence * (3/10) + (hr.confidence.getD (9/10)) * (7/10))
    treatment_plan := hr.treatment_plan.getD ai.recommended_treatment
    consensus := _check_consensus ai hr }

/-- The human-doctor transcript entry appended by `submit_human_review`. -/
def reviewNotice (hr : HumanReview) (agrees : Bool) : TranscriptEntry :=
  { actor := "human_doctor"
    doctor_name := some hr.doctor_name
    action := some "review_submitted"
    agrees_with_ai := some agrees }

/-- Embeds `submit_human_review(session_id, doctor_id, doctor_name, review)`
on an existing session, as a state transformer on that session.  A session
whose `ai_analysis` is still unset is returned unchanged (unreachable through
the manager: every stored session has its analysis assigned before any review;
the Python code would raise an `AttributeError` there). -/
def submit_human_review (s : HybridSession) (hr : HumanReview) : HybridSession :=
  match s.ai_analysis with
  | none => s
  | some ai =>
    let s1 := { s with stage := CollaborationStage.human_reviewing, human_review := some hr }
    let hybrid := _create_hybrid_recommendation ai hr
    let stage2 :=
      if _check_consensus ai hr then CollaborationStage.consensus_reached
      else CollaborationStage.disagreement
    let hc := hr.confidence.getD (9/10)
    let s2 :=
      { s1 with stage := stage2
                final_recommendation := some (FinalRec.ofHybrid hybrid)
                confidence_human := hc
                confidence_hybrid := s.confidence_ai * (4/10) + hc * (6/10) }
    { s2 with conversation_history :=
        s2.conversation_history ++ [reviewNotice hr (_check_consensus ai hr)] }

/-- The confidence stored in the hybrid recommendation of the session, when
the final recommendation is a hybrid one. -/
def recommendation_confidence (s : HybridSession) : Option ℚ :=
  match s.final_recommendation with
  | some (FinalRec.ofHybrid h) => some h.confidence
  | _ => none

/-- Embeds `_ai_quick_response(patient_question, ai_analysis)`: intent
matching over the lowercased message (duration, severity/worry, cost, default
fallback quoting the current AI primary diagnosis). -/
def _ai_quick_response (patient_question : String) (ai : AIAnalysis) : String :=
  let question_lower := lowerStr patient_question
  if isSubstring "how long" question_lower then
    "Based on the initial analysis, most cases see improvement within 2-3 days with proper treatment. A human doctor is reviewing your case for confirmation."
  else if isSubstring "serious" question_lower || isSubstring "worried" question_lower then
    "Your symptoms don\x27t show immediate red flags, but a human doctor is reviewing to provide expert validation. You should see their response shortly."
  else if isSubstring "cost" question_lower then
    "Treatment costs vary, but we can provide estimates once the human doctor confirms the diagnosis. Typically ranges from $50-$200 for this type of condition."
  else
    "A human doctor is currently reviewing the AI analysis. They\x27ll provide expert validation shortly. In the meantime, the AI assessment suggests: "
      ++ ai.primary_diagnosis

/-- Embeds `add_collaboration_message(session_id, actor, message, metadata)`
on an existing session (metadata defaults to the empty dict and is not
inspected by the claims).  When the quick-response branch would be taken but
no AI analysis is stored yet, only the patient entry is appended (the Python
code would raise there; unreachable through the manager, which sets the
analysis before the stage can become `human_review_pending`). -/
def add_collaboration_message (s : HybridSession) (actor msg : String) : HybridSession :=
  let entry : TranscriptEntry := { actor := actor, message := some msg }
  let s1 := { s with conversation_history := s.conversation_history ++ [entry] }
  if actor = "patient" ∧ s.stage = CollaborationStage.human_review_pending then
    match s.ai_analysis with
    | none => s1
    | some ai =>
      { s1 with conversation_history := s1.conversation_history ++
          [{ actor := "ai_agent",
             message := some (_ai_quick_response msg ai),
             entry_type := some "quick_response" }] }
  else s1

/-- Embeds `_determine_priority(reason, ai_analysis)`. -/
def _determine_priority (reason_text : String) (ai : AIAnalysis) : String :=
  let reason_lower := lowerStr reason_text
  if ai.urgency_level = "high" ∨ ai.urgency_level = "emergency" then "urgent"
  else if isSubstring "pain" reason_lower || isSubstring "worsening" reason_lower then "high"
  else if isSubstring "second opinion" reason_lower then "normal"
  else "low"

/-- Embeds `request_human_escalation(session_id, reason, patient_message)` on
an existing session: reopens a completed session to `human_review_pending` and
appends the escalation entry.  A session without a stored AI analysis is
returned unchanged (the Python code would raise computing the priority there;
unreachable through the manager). -/
def request_human_escalation (s : HybridSession) (reason_text : String)
    (pm : Option String) : HybridSession :=
  match s.ai_analysis with
  | none => s
  | some ai =>
    let s1 :=
      if s.stage = CollaborationStage.completed then
        { s with stage := CollaborationStage.human_review_pending }
      else s
    { s1 with conversation_history := s1.conversation_history ++
        [{ actor := "system",
           action := some "escalation_requested",
           reason := some reason_text,
           patient_message := pm,
           priority := some (_determine_priority reason_text ai) }] }

/-- Embeds `DedalusOrchestrator._extract_specialties(triage_result)`, applied
to the triage assessment narrative
(`str(triage_result.get("assessment", ""))`). -/
def _extract_specialties (triage_assessment : String) : List String :=
  let assessment := lowerStr triage_assessment
  let cardio := if containsAny assessment ["heart", "cardiac", "chest"] then ["cardiology"] else []
  let neuro := if containsAny assessment ["head", "neuro", "brain", "migraine"] then ["neurology"] else []
  let gastro := if containsAny assessment ["stomach", "abdominal", "digest", "gerd"] then ["gastroenterology"] else []
  let specialties := cardio ++ neuro ++ gastro
  if specialties.isEmpty then ["cardiology", "neurology"] else specialties

/-- The keys of `specialist_consultations` produced by Phase 2 of
`multi_agent_diagnosis`: the recommended specialties filtered by membership in
the three supported specialist agents. -/
def specialist_consultation_keys (triage_assessment : String) : List String :=
  (_extract_specialties triage_assessment).filter
    (fun sp => sp = "cardiology" ∨ sp = "neurology" ∨ sp = "gastroenterology")

/-- One condition/treatment pair extracted for the financial phase. -/
structure CondTreat where
  condition : String
  treatment : String
deriving DecidableEq, Repr

/-- Embeds
`DedalusOrchestrator._extract_conditions_and_treatments(specialist_results)`
on the (specialty, assessment narrative) pairs, in iteration order. -/
def _extract_conditions_and_treatments
    (specialist_results : List (String × String)) : List CondTreat :=
  let conditions := specialist_results.filterMap (fun p =>
    let assessment := lowerStr p.2
    if isSubstring "migraine" assessment then
      some { condition := "Migraine", treatment := "Triptans medication" }
    else if isSubstring "gerd" assessment then
      some { condition := "GERD", treatment := "Proton pump inhibitors" }
    else if isSubstring "cardiac" assessment || isSubstring "heart" assessment then
      some { condition := "Cardiac Event", treatment := "Emergency care" }
    else none)
  if conditions.isEmpty then
    [{ condition := "General", treatment := "Standard care" }]
  else conditions

/-- The result dict returned by `MedicalMCPServer.execute_tool`: a status tag
(success for dispatched tools, error for unknown tool names) plus the tool
payload. -/
structure ToolResult where
  status : String
  payload : String
deriving DecidableEq, Repr

/-- The five tool names `execute_tool` dispatches. -/
def knownTools : List String :=
  ["search_symptoms", "get_patient_timeline", "analyze_treatment_cost",
   "get_condition_insights", "calculate_financial_risk"]

/-- Embeds `MedicalMCPServer.execute_tool(tool_name, arguments)`.  The
underlying service calls (vector search, warehouse timeline, cost estimate,
insights, financial risk) are abstracted into one uninterpreted function `svc`
returning `Except` — a Python exception raised inside a service (e.g. the
`IndexError` from an empty Snowflake connection pool in
`get_user_health_timeline`) is `Except.error`, and `execute_tool` has no
`try`/`except` of its own, so it propagates such failures; an unknown tool
name is returned as an error-status result without raising. -/
def execute_tool (svc : String → Except String String) (tool_name : String) :
    Except String ToolResult :=
  if tool_name ∈ knownTools then
    (svc tool_name).map (fun payload => { status := "success", payload := payload })
  else
    Except.ok { status := "error", payload := "Unknown tool: " ++ tool_name }

/-- The assessment dict returned by `DedalusOrchestrator._run_agent` (the
error branch of the source returns a dict without `tools_used`, modelled as
the empty list with `error := true`). -/
structure AgentAssessment where
  agent : String
  assessment : String
  tools_used : List String
  error : Bool
deriving DecidableEq, Repr

/-- The tool-execution loop at the top of `_run_agent`: `None` placeholders in
`tools_to_use` are skipped (`if tool_call:`), each remaining call goes through
`execute_tool`, and the results are collected in order.  The loop is outside
any `try`/`except`, so a raising tool call aborts it (modelled by `Except`
propagation). -/
def run_tool_calls (svc : String → Except String String) :
    List (Option String) → Except String (List (String × ToolResult))
  | [] => Except.ok []
  | none :: rest => run_tool_calls svc rest
  | some t :: rest =>
    match execute_tool svc t with
    | Except.error e => Except.error e
    | Except.ok r =>
      match run_tool_calls svc rest with
      | Except.error e => Except.error e
      | Except.ok rs => Except.ok ((t, r) :: rs)

/-- Embeds `DedalusOrchestrator._run_agent(agent_type, context, tools_to_use)`
on the configured-client path: run the tool calls first, then issue exactly
one model call (abstracted as `model_call`, `Except.error` for a raised
exception); only the model call is inside the `try`, and its failure is
converted into an error-flagged assessment with the `"Agent error: ..."`
narrative. -/
def _run_agent (svc : String → Except String String)
    (model_call : String → Except String String)
    (agent_type : String) (tools_to_use : List (Option String)) :
    Except String AgentAssessment :=
  match run_tool_calls svc tools_to_use with
  | Except.error e => Except.error e
  | Except.ok tool_results =>
    match model_call agent_type with
    | Except.ok narrative =>
      Except.ok { agent := agent_type, assessment := narrative,
                  tools_used := tool_results.map Prod.fst, error := false }
    | Except.error e =>
      Except.ok { agent := agent_type, assessment := "Agent error: " ++ e,
                  tools_used := [], error := true }

/-- Success test on `Except` as a plain Bool (for stating hypotheses
decidably). -/
def exceptOk {ε α : Type} : Except ε α → Bool
  | Except.ok _ => true
  | Except.error _ => false

/-- C1: the escalation policy returns true iff AI confidence < 0.70, or the
urgency is high/emergency, or the red-flag list is non-empty, or strictly more
than 2 differential diagnoses have individual probability > 0.20; it is a pure
function of the analysis and the urgency argument. -/
theorem should_escalate_iff (ai : AIAnalysis) (urgency : String) :
    _should_escalate_to_human ai urgency = true ↔
      (ai.confidence < 7/10 ∨ urgency = "high" ∨ urgency = "emergency" ∨
        ai.red_flags ≠ [] ∨
        2 < (ai.differential_diagnoses.filter
          (fun d => decide ((1/5 : ℚ) < d.probability))).length) := by
  unfold _should_escalate_to_human
  split_ifs with h1 h2 h3 h4
  · simp [h1]
  · rcases h2 with h2 | h2 <;> simp [h2]
  · have : ai.red_flags ≠ [] := by
      intro hnil
      rw [hnil] at h3
      simp at h3
    simp [this]
  · exact iff_of_true rfl (Or.inr (Or.inr (Or.inr (Or.inr h4))))
  · constructor
    · intro h
      exact absurd h (by simp)
    · intro h
      rcases h with h | h | h | h | h
      · exact absurd h h1
      · exact absurd (Or.inl h) h2
      · exact absurd (Or.inr h) h2
      · exact absurd (List.length_pos.mpr h) h3
      · exact absurd h h4

/-- Evaluation helper: the escalation policy on the mock analysis with urgency
high escalates (urgency rule). -/
theorem escalate_mock_high :
    _should_escalate_to_human (_get_ai_analysis "headache" "high") "high" = true := by
  unfold _should_escalate_to_human _get_ai_analysis
  rw [if_neg (by norm_num), if_pos (Or.inl rfl)]

/-- Evaluation helper: the escalation policy on the mock analysis with urgency
low does not escalate (confidence 0.78, no red flags, one differential above
0.20). -/
theorem escalate_mock_low :
    _should_escalate_to_human (_get_ai_analysis "headache" "low") "low" = false := by
  unfold _should_escalate_to_human _get_ai_analysis
  rw [if_neg (by norm_num), if_neg (by decide), if_neg (by decide),
    if_neg (by norm_num [List.filter, decide_eq_true_eq])]

/-- Both branches of `start_hybrid_consultation` store the obtained AI
analysis on the session. -/
theorem start_ai_analysis (symptoms urgency : String) :
    (start_hybrid_consultation symptoms urgency).ai_analysis =
      some (_get_ai_analysis symptoms urgency) := by
  cases h : _should_escalate_to_human (_get_ai_analysis symptoms urgency) urgency <;>
    simp [start_hybrid_consultation, h]

/-- The mock session with urgency low completes without escalation. -/
theorem start_stage_low :
    (start_hybrid_consultation "headache" "low").stage = CollaborationStage.completed := by
  simp [start_hybrid_consultation, escalate_mock_low]

/-- The mock session with urgency high awaits human review. -/
theorem start_stage_high :
    (start_hybrid_consultation "headache" "high").stage =
      CollaborationStage.human_review_pending := by
  simp [start_hybrid_consultation, escalate_mock_high]

/-- C2: starting a hybrid session ends the call in `completed` with
`final_recommendation = ai_analysis` when the escalation policy rejects
escalation for the obtained AI analysis and the urgency, and in
`human_review_pending` with a system transcript entry recording the escalation
reason when the policy requires it. -/
theorem start_hybrid_consultation_spec (symptoms urgency : String) :
    (_should_escalate_to_human (_get_ai_analysis symptoms urgency) urgency = false →
      (start_hybrid_consultation symptoms urgency).stage = CollaborationStage.completed ∧
      (start_hybrid_consultation symptoms urgency).final_recommendation =
        some (FinalRec.ofAI (_get_ai_analysis symptoms urgency))) ∧
    (_should_escalate_to_human (_get_ai_analysis symptoms urgency) urgency = true →
      (start_hybrid_consultation symptoms urgency).stage = CollaborationStage.human_review_pending ∧
      (start_hybrid_consultation symptoms urgency).conversation_history =
        [escalationNotice (_get_ai_analysis symptoms urgency)]) := by
  unfold start_hybrid_consultation
  cases h : _should_escalate_to_human (_get_ai_analysis symptoms urgency) urgency <;>
    simp [h, HybridSession.init]

/-- Witness for C2 at a concrete input: with urgency high the policy escalates
and the session ends pending human review with the system notice. -/
theorem start_hybrid_consultation_spec_witness :
    (start_hybrid_consultation "headache" "high").stage = CollaborationStage.human_review_pending ∧
    (start_hybrid_consultation "headache" "high").conversation_history =
      [escalationNotice (_get_ai_analysis "headache" "high")] :=
  (start_hybrid_consultation_spec "headache" "high").2 escalate_mock_high

/-- C3: submitting a human review on an existing session ends in exactly one of
`consensus_reached` or `disagreement` (never `ai_analyzing`), and it ends in
`consensus_reached` precisely when the lowercased AI primary diagnosis and the
lowercased human diagnosis contain one another as substrings in either
direction. -/
theorem submit_human_review_consensus (s : HybridSession) (ai : AIAnalysis)
    (hr : HumanReview) (hai : s.ai_analysis = some ai) :
    ((submit_human_review s hr).stage = CollaborationStage.consensus_reached ∨
      (submit_human_review s hr).stage = CollaborationStage.disagreement) ∧
    (submit_human_review s hr).stage ≠ CollaborationStage.ai_analyzing ∧
    ((submit_human_review s hr).stage = CollaborationStage.consensus_reached ↔
      (isSubstring (lowerStr ai.primary_diagnosis) (lowerStr (hr.diagnosis.getD "")) = true ∨
       isSubstring (lowerStr (hr.diagnosis.getD "")) (lowerStr ai.primary_diagnosis) = true)) := by
  have hstage : (submit_human_review s hr).stage =
      if _check_consensus ai hr then CollaborationStage.consensus_reached
      else CollaborationStage.disagreement := by
    unfold submit_human_review
    rw [hai]
  rw [hstage]
  by_cases h : _check_consensus ai hr = true
  · rw [if_pos h]
    simp only [_check_consensus, Bool.or_eq_true] at h
    simp [h]
  · rw [if_neg h]
    simp only [_check_consensus, Bool.or_eq_true] at h
    push_neg at h
    simp [h.1, h.2]

/-- Witness for C3 at a concrete input: reviewing the escalated mock session
with a human diagnosis of severe tension headache reaches consensus, since the
AI primary diagnosis is contained in it after lowercasing. -/
theorem submit_human_review_consensus_witness :
    (submit_human_review (start_hybrid_consultation "headache" "high")
        { doctor_id := "dr001", doctor_name := "Dr. Sarah Johnson",
          diagnosis := some "severe tension headache", confidence := some (85/100),
          treatment_plan := none, notes := none }).stage =
      CollaborationStage.consensus_reached :=
  ((submit_human_review_consensus (start_hybrid_consultation "headache" "high")
      (_get_ai_analysis "headache" "high")
      { doctor_id := "dr001", doctor_name := "Dr. Sarah Johnson",
        diagnosis := some "severe tension headache", confidence := some (85/100),
        treatment_plan := none, notes := none }
      (start_ai_analysis "headache" "high")).2.2).mpr (Or.inl (by decide))

/-- The empty string is a substring of every string (Python `"" in s`). -/
theorem isSubstring_empty_left (t : String) : isSubstring "" t = true := by
  simp [isSubstring]

/-- C10: when the submitted review omits the diagnosis (so the human diagnosis
defaults to the empty string), the consensus check succeeds — the empty string
is a substring of every string — and the session always ends in
`consensus_reached`, whatever the AI primary diagnosis is. -/
theorem submit_human_review_empty_diagnosis (s : HybridSession) (ai : AIAnalysis)
    (hr : HumanReview) (hai : s.ai_analysis = some ai) (hd : hr.diagnosis = none) :
    _check_consensus ai hr = true ∧
    (submit_human_review s hr).stage = CollaborationStage.consensus_reached := by
  have hcc : _check_consensus ai hr = true := by
    unfold _check_consensus
    rw [hd]
    simp [lowerStr, isSubstring]
  refine ⟨hcc, ?_⟩
  unfold submit_human_review
  rw [hai]
  simp [hcc]

/-- Witness for C10 at a concrete input: a review without diagnosis on the
escalated mock session reaches consensus. -/
theorem submit_human_review_empty_diagnosis_witness :
    (submit_human_review (start_hybrid_consultation "headache" "high")
        { doctor_id := "dr002", doctor_name := "Dr. Lee",
          diagnosis := none, confidence := none,
          treatment_plan := none, notes := none }).stage =
      CollaborationStage.consensus_reached :=
  (submit_human_review_empty_diagnosis (start_hybrid_consultation "headache" "high")
      (_get_ai_analysis "headache" "high")
      { doctor_id := "dr002", doctor_name := "Dr. Lee",
        diagnosis := none, confidence := none,
        treatment_plan := none, notes := none }
      (start_ai_analysis "headache" "high")
      rfl).2

/-- C4 (amended): the session-level hybrid confidence is exactly
0.4 * ai + 0.6 * human, while the own confidence of the hybrid recommendation
is the distinct blend 0.3 * ai_confidence + 0.7 * human_confidence rounded to
two decimal places (Python `round(x, 2)`); the human confidence defaults to
0.9 when the review omits it. -/
theorem confidence_blends (s : HybridSession) (ai : AIAnalysis) (hr : HumanReview)
    (hai : s.ai_analysis = some ai) :
    (submit_human_review s hr).confidence_hybrid =
      s.confidence_ai * (4/10) + (hr.confidence.getD (9/10)) * (6/10) ∧
    recommendation_confidence (submit_human_review s hr) =
      some (pyRound2 (ai.confidence * (3/10) + (hr.confidence.getD (9/10)) * (7/10))) := by
  unfold submit_human_review
  rw [hai]
  unfold recommendation_confidence _create_hybrid_recommendation
  by_cases h : _check_consensus ai hr = true
  · simp [h]
  · simp [h]

/-- Witness for C4 (amended) at a concrete input: ai = 0.78 (mock), human =
0.9, so the session-level blend is 0.852 and the recommendation confidence is
round(0.864, 2) = 0.86. -/
theorem confidence_blends_witness :
    (submit_human_review (start_hybrid_consultation "headache" "high")
        { doctor_id := "dr003", doctor_name := "Dr. Kim",
          diagnosis := some "tension headache", confidence := some (9/10),
          treatment_plan := none, notes := none }).confidence_hybrid = 852/1000 ∧
    recommendation_confidence (submit_human_review (start_hybrid_consultation "headache" "high")
        { doctor_id := "dr003", doctor_name := "Dr. Kim",
          diagnosis := some "tension headache", confidence := some (9/10),
          treatment_plan := none, notes := none }) = some (86/100) := by
  have h := confidence_blends (start_hybrid_consultation "headache" "high")
    (_get_ai_analysis "headache" "high")
    { doctor_id := "dr003", doctor_name := "Dr. Kim",
      diagnosis := some "tension headache", confidence := some (9/10),
      treatment_plan := none, notes := none }
    (start_ai_analysis "headache" "high")
  refine ⟨?_, ?_⟩
  · rw [h.1]
    norm_num [start_hybrid_consultation, _should_escalate_to_human, _get_ai_analysis,
      HybridSession.init]
  · rw [h.2]
    norm_num [pyRound2, _get_ai_analysis]

/-- Counterexample for C4 as stated: because the source rounds with
`round(x, 2)`, the recommendation confidence built at ai = 0.78 (the mock
analysis), human = 0.9 is 0.86, which differs from the claimed exact blend
0.3 * 0.78 + 0.7 * 0.9 = 0.864. -/
theorem recommendation_confidence_not_exact_blend :
    (_create_hybrid_recommendation (_get_ai_analysis "headache" "high")
        { doctor_id := "dr003", doctor_name := "Dr. Kim",
          diagnosis := some "tension headache", confidence := some (9/10),
          treatment_plan := none, notes := none }).confidence = 86/100 ∧
    (86/100 : ℚ) ≠ (78/100) * (3/10) + (9/10) * (7/10) := by
  constructor
  · norm_num [_create_hybrid_recommendation, _get_ai_analysis, pyRound2]
  · norm_num

/-- C9: on an existing session, a patient message while the stage is
`human_review_pending` appends exactly two transcript entries — the patient
message first, then the AI quick response synthesized by intent matching —
while the same call in `consensus_reached` appends exactly one; the existing
history is preserved unchanged as a prefix in both cases. -/
theorem add_collaboration_message_spec (s : HybridSession) (ai : AIAnalysis)
    (m : String) (hai : s.ai_analysis = some ai) :
    (s.stage = CollaborationStage.human_review_pending →
      (add_collaboration_message s "patient" m).conversation_history =
        s.conversation_history ++
          [{ actor := "patient", message := some m },
           { actor := "ai_agent", message := some (_ai_quick_response m ai),
             entry_type := some "quick_response" }]) ∧
    (s.stage = CollaborationStage.consensus_reached →
      (add_collaboration_message s "patient" m).conversation_history =
        s.conversation_history ++ [{ actor := "patient", message := some m }]) := by
  constructor
  · intro hst
    unfold add_collaboration_message
    rw [if_pos ⟨rfl, hst⟩, hai]
    simp
  · intro hst
    unfold add_collaboration_message
    rw [if_neg]
    intro h
    rw [hst] at h
    exact absurd h.2 (by simp)

/-- Witness for C9 at a concrete input: a patient question on the escalated
mock session (stage `human_review_pending`) appends the patient entry and the
duration quick response. -/
theorem add_collaboration_message_spec_witness :
    (add_collaboration_message (start_hybrid_consultation "headache" "high")
        "patient" "how long will this last?").conversation_history =
      (start_hybrid_consultation "headache" "high").conversation_history ++
        [{ actor := "patient", message := some "how long will this last?" },
         { actor := "ai_agent",
           message := some (_ai_quick_response "how long will this last?"
             (_get_ai_analysis "headache" "high")),
           entry_type := some "quick_response" }] :=
  (add_collaboration_message_spec (start_hybrid_consultation "headache" "high")
      (_get_ai_analysis "headache" "high") "how long will this last?"
      (start_ai_analysis "headache" "high")).1 start_stage_high

/-- Counterexample for C8 as stated: `submit_human_review` performs no stage
validation.  On the mock session completed without escalation (urgency low),
submitting a review is not rejected — it silently moves the stage from
`completed` to `consensus_reached`. -/
theorem submit_on_completed_not_rejected :
    (start_hybrid_consultation "headache" "low").stage = CollaborationStage.completed ∧
    (submit_human_review (start_hybrid_consultation "headache" "low")
        { doctor_id := "dr004", doctor_name := "Dr. Park",
          diagnosis := some "tension headache", confidence := some (8/10),
          treatment_plan := none, notes := none }).stage =
      CollaborationStage.consensus_reached := by
  constructor
  · exact start_stage_low
  · unfold submit_human_review
    rw [start_ai_analysis]
    have hcc : _check_consensus (_get_ai_analysis "headache" "low")
        { doctor_id := "dr004", doctor_name := "Dr. Park",
          diagnosis := some "tension headache", confidence := some (8/10),
          treatment_plan := none, notes := none } = true := by decide
    simp [hcc]

/-- C8 (amended): on a completed session, `submit_human_review` is not
rejected — it proceeds and lands in `consensus_reached` or `disagreement`
(in particular it never yields `human_review_pending`); the only manager
operation that moves a completed session back to `human_review_pending` is the
explicit reopen path in `request_human_escalation`, while
`add_collaboration_message` leaves a completed stage unchanged. -/
theorem completed_session_paths (s : HybridSession) (ai : AIAnalysis)
    (hr : HumanReview) (re actor msg : String) (pm : Option String)
    (hai : s.ai_analysis = some ai) (hst : s.stage = CollaborationStage.completed) :
    ((submit_human_review s hr).stage = CollaborationStage.consensus_reached ∨
      (submit_human_review s hr).stage = CollaborationStage.disagreement) ∧
    (submit_human_review s hr).stage ≠ CollaborationStage.human_review_pending ∧
    (request_human_escalation s re pm).stage = CollaborationStage.human_review_pending ∧
    (add_collaboration_message s actor msg).stage = CollaborationStage.completed := by
  refine ⟨?_, ?_, ?_, ?_⟩
  · unfold submit_human_review
    rw [hai]
    cases h : _check_consensus ai hr <;> simp [h]
  · unfold submit_human_review
    rw [hai]
    cases h : _check_consensus ai hr <;> simp [h]
  · unfold request_human_escalation
    rw [hai, if_pos hst]
  · unfold add_collaboration_message
    rw [if_neg]
    · exact hst
    · intro h
      rw [hst] at h
      exact absurd h.2 (by simp)

/-- Witness for C8 (amended) at a concrete input: the completed mock session
is reopened to `human_review_pending` only by `request_human_escalation`,
while a collaboration message leaves it completed. -/
theorem completed_session_paths_witness :
    (request_human_escalation (start_hybrid_consultation "headache" "low")
        "second opinion please" none).stage = CollaborationStage.human_review_pending ∧
    (add_collaboration_message (start_hybrid_consultation "headache" "low")
        "patient" "thanks").stage = CollaborationStage.completed :=
  ⟨(completed_session_paths (start_hybrid_consultation "headache" "low")
      (_get_ai_analysis "headache" "low")
      { doctor_id := "dr004", doctor_name := "Dr. Park",
        diagnosis := none, confidence := none, treatment_plan := none, notes := none }
      "second opinion please" "patient" "thanks" none
      (start_ai_analysis "headache" "low") start_stage_low).2.2.1,
   (completed_session_paths (start_hybrid_consultation "headache" "low")
      (_get_ai_analysis "headache" "low")
      { doctor_id := "dr004", doctor_name := "Dr. Park",
        diagnosis := none, confidence := none, treatment_plan := none, notes := none }
      "second opinion please" "patient" "thanks" none
      (start_ai_analysis "headache" "low") start_stage_low).2.2.2⟩

/-- C5: the Phase-2 candidate specialty set is governed by the three keyword
lists on the lowercased triage narrative — whenever at least one keyword
matches, each specialty is selected iff its own list matches (so a chest token
alone selects cardiology without any heart token) — and when no keyword
matches the set defaults to exactly cardiology and neurology; the
`specialist_consultations` keys are always among the three supported
specialties. -/
theorem extract_specialties_spec (t : String) :
    ((containsAny (lowerStr t) ["heart", "cardiac", "chest"] = true ∨
      containsAny (lowerStr t) ["head", "neuro", "brain", "migraine"] = true ∨
      containsAny (lowerStr t) ["stomach", "abdominal", "digest", "gerd"] = true) →
      (("cardiology" ∈ _extract_specialties t) ↔
        containsAny (lowerStr t) ["heart", "cardiac", "chest"] = true) ∧
      (("neurology" ∈ _extract_specialties t) ↔
        containsAny (lowerStr t) ["head", "neuro", "brain", "migraine"] = true) ∧
      (("gastroenterology" ∈ _extract_specialties t) ↔
        containsAny (lowerStr t) ["stomach", "abdominal", "digest", "gerd"] = true)) ∧
    (containsAny (lowerStr t) ["heart", "cardiac", "chest"] = false →
      containsAny (lowerStr t) ["head", "neuro", "brain", "migraine"] = false →
      containsAny (lowerStr t) ["stomach", "abdominal", "digest", "gerd"] = false →
      _extract_specialties t = ["cardiology", "neurology"]) ∧
    (∀ k ∈ specialist_consultation_keys t,
      k = "cardiology" ∨ k = "neurology" ∨ k = "gastroenterology") := by
  refine ⟨?_, ?_, ?_⟩
  · intro hmatch
    cases hc : containsAny (lowerStr t) ["heart", "cardiac", "chest"] <;>
      cases hn : containsAny (lowerStr t) ["head", "neuro", "brain", "migraine"] <;>
        cases hg : containsAny (lowerStr t) ["stomach", "abdominal", "digest", "gerd"] <;>
          simp_all [_extract_specialties]
  · intro hc hn hg
    simp [_extract_specialties, hc, hn, hg]
  · intro k hk
    have := List.of_mem_filter hk
    simpa using of_decide_eq_true this

/-- Witness for C5 at the example input of the spec: a narrative of chest pain
radiating to the arm matches only the cardiology keyword list (via the chest
token, with no heart token), so cardiology is selected and gastroenterology is
not. -/
theorem extract_specialties_spec_witness :
    ("cardiology" ∈ _extract_specialties "chest pain radiating to arm") ∧
    ("gastroenterology" ∉ _extract_specialties "chest pain radiating to arm") :=
  ⟨((extract_specialties_spec "chest pain radiating to arm").1
      (Or.inl (by decide))).1.mpr (by decide),
   fun h => by
    have := ((extract_specialties_spec "chest pain radiating to arm").1
      (Or.inl (by decide))).2.2.mp h
    exact absurd this (by decide)⟩

/-- Counterexample for C6 as stated: the keyword matching is a first-match
`elif` chain, so a narrative containing both migraine and gerd yields only the
Migraine entry — the GERD/proton-pump-inhibitors pair is absent even though
the narrative contains gerd. -/
theorem extract_conditions_gerd_shadowed :
    isSubstring "gerd" (lowerStr "possible migraine, rule out GERD") = true ∧
    ({ condition := "GERD", treatment := "Proton pump inhibitors" } : CondTreat) ∉
      _extract_conditions_and_treatments
        [("gastroenterology", "possible migraine, rule out GERD")] ∧
    _extract_conditions_and_treatments
        [("gastroenterology", "possible migraine, rule out GERD")] =
      [{ condition := "Migraine", treatment := "Triptans medication" }] := by
  refine ⟨by decide, ?_, ?_⟩ <;> decide

/-- C6 (amended): a specialist narrative containing gerd (case-insensitive)
produces the GERD/proton-pump-inhibitors entry provided that same narrative
does not also contain migraine (the `elif` chain checks migraine first); when
no condition keyword matches any narrative, the extracted list is exactly the
General/Standard-care fallback. -/
theorem extract_conditions_spec (rs : List (String × String)) :
    ((∃ p ∈ rs, isSubstring "gerd" (lowerStr p.2) = true ∧
        isSubstring "migraine" (lowerStr p.2) = false) →
      ({ condition := "GERD", treatment := "Proton pump inhibitors" } : CondTreat) ∈
        _extract_conditions_and_treatments rs) ∧
    ((∀ p ∈ rs, isSubstring "migraine" (lowerStr p.2) = false ∧
        isSubstring "gerd" (lowerStr p.2) = false ∧
        isSubstring "cardiac" (lowerStr p.2) = false ∧
        isSubstring "heart" (lowerStr p.2) = false) →
      _extract_conditions_and_treatments rs =
        [{ condition := "General", treatment := "Standard care" }]) := by
  constructor
  · rintro ⟨p, hp, hgerd, hmig⟩
    unfold _extract_conditions_and_treatments
    have hmem : ({ condition := "GERD", treatment := "Proton pump inhibitors" } : CondTreat) ∈
        rs.filterMap (fun p =>
          let assessment := lowerStr p.2
          if isSubstring "migraine" assessment then
            some ({ condition := "Migraine", treatment := "Triptans medication" } : CondTreat)
          else if isSubstring "gerd" assessment then
            some ({ condition := "GERD", treatment := "Proton pump inhibitors" } : CondTreat)
          else if isSubstring "cardiac" assessment || isSubstring "heart" assessment then
            some ({ condition := "Cardiac Event", treatment := "Emergency care" } : CondTreat)
          else none) := by
      refine List.mem_filterMap.mpr ⟨p, hp, ?_⟩
      simp [hmig, hgerd]
    rw [if_neg]
    · exact hmem
    · intro hempty
      rw [List.isEmpty_iff] at hempty
      rw [hempty] at hmem
      exact absurd hmem (List.not_mem_nil _)
  · intro hall
    unfold _extract_conditions_and_treatments
    have hnil : rs.filterMap (fun p =>
        let assessment := lowerStr p.2
        if isSubstring "migraine" assessment then
          some ({ condition := "Migraine", treatment := "Triptans medication" } : CondTreat)
        else if isSubstring "gerd" assessment then
          some ({ condition := "GERD", treatment := "Proton pump inhibitors" } : CondTreat)
        else if isSubstring "cardiac" assessment || isSubstring "heart" assessment then
          some ({ condition := "Cardiac Event", treatment := "Emergency care" } : CondTreat)
        else none) = [] := by
      rw [List.filterMap_eq_nil_iff]
      intro p hp
      obtain ⟨h1, h2, h3, h4⟩ := hall p hp
      simp [h1, h2, h3, h4]
    rw [hnil]
    rfl

/-- Witness for C6 (amended) at a concrete input: a gastroenterology narrative
containing GERD (and no migraine) produces the GERD entry. -/
theorem extract_conditions_spec_witness :
    ({ condition := "GERD", treatment := "Proton pump inhibitors" } : CondTreat) ∈
      _extract_conditions_and_treatments
        [("gastroenterology", "findings consistent with GERD")] :=
  (extract_conditions_spec [("gastroenterology", "findings consistent with GERD")]).1
    (by decide)

/-- Evaluation helper: if every requested tool call returns (no service
raised), the tool loop returns all results in order, one per non-`None`
request. -/
theorem run_tool_calls_ok (svc : String → Except String String)
    (tools : List (Option String))
    (h : ∀ n ∈ tools.reduceOption, exceptOk (execute_tool svc n) = true) :
    ∃ rs, run_tool_calls svc tools = Except.ok rs ∧
      rs.map Prod.fst = tools.reduceOption := by
  induction tools with
  | nil => exact ⟨[], rfl, rfl⟩
  | cons hd tl ih =>
    cases hd with
    | none =>
      simp only [List.reduceOption_cons_of_none] at h
      obtain ⟨rs, hrs, hmap⟩ := ih h
      exact ⟨rs, by simpa [run_tool_calls] using hrs, by simpa using hmap⟩
    | some t =>
      simp only [List.reduceOption_cons_of_some] at h
      have ht := h t (List.mem_cons_self t _)
      obtain ⟨r, hr⟩ : ∃ r, execute_tool svc t = Except.ok r := by
        cases hx : execute_tool svc t with
        | ok r => exact ⟨r, rfl⟩
        | error e =>
          rw [hx] at ht
          exact absurd ht (by simp [exceptOk])
      obtain ⟨rs, hrs, hmap⟩ := ih (fun n hn => h n (List.mem_cons_of_mem _ hn))
      refine ⟨(t, r) :: rs, ?_, ?_⟩
      · simp [run_tool_calls, hr, hrs]
      · simp [hmap]

/-- Counterexample for C7 as stated: the tool loop of `_run_agent` is outside
its `try`/`except`, so an exception raised by the underlying service of a tool
(for instance the `IndexError` raised by `get_patient_timeline` when the
Snowflake connection pool is empty) propagates past the invocation boundary
instead of being collected, even though the model call would have succeeded. -/
theorem run_agent_tool_exception_escapes :
    _run_agent (fun _ => Except.error "IndexError: list index out of range")
      (fun _ => Except.ok "narrative") "triage" [some "get_patient_timeline"] =
      Except.error "IndexError: list index out of range" := rfl

/-- C7 (amended): when no underlying tool service raises, a specialist-agent
invocation never raises past its boundary: every requested tool call is
executed first and its result collected in order (an unknown tool contributes
an error-status result and the remaining calls still run), then exactly one
model call happens; if that model call fails, the invocation returns an
assessment with the error flag set and the diagnostic narrative instead of
propagating the failure.  An exception raised inside the service call of a
tool, however, does escape (see the counterexample). -/
theorem run_agent_contained (svc model_call : String → Except String String)
    (agent_type : String) (tools : List (Option String))
    (h : ∀ n ∈ tools.reduceOption, exceptOk (execute_tool svc n) = true) :
    ∃ a, _run_agent svc model_call agent_type tools = Except.ok a ∧
      a.agent = agent_type ∧
      ((∃ msg, model_call agent_type = Except.ok msg ∧
          a.assessment = msg ∧ a.error = false ∧ a.tools_used = tools.reduceOption) ∨
       (∃ e, model_call agent_type = Except.error e ∧
          a.assessment = "Agent error: " ++ e ∧ a.error = true)) := by
  obtain ⟨rs, hrs, hmap⟩ := run_tool_calls_ok svc tools h
  cases hm : model_call agent_type with
  | ok msg =>
    refine ⟨{ agent := agent_type, assessment := msg,
              tools_used := rs.map Prod.fst, error := false }, ?_, rfl, ?_⟩
    · unfold _run_agent
      rw [hrs, hm]
    · exact Or.inl ⟨msg, rfl, rfl, rfl, hmap⟩
  | error e =>
    refine ⟨{ agent := agent_type, assessment := "Agent error: " ++ e,
              tools_used := [], error := true }, ?_, rfl, ?_⟩
    · unfold _run_agent
      rw [hrs, hm]
    · exact Or.inr ⟨e, rfl, rfl, rfl⟩

/-- Witness for C7 (amended) at a concrete input: with a returning service, a
failing model call, and a tool list containing a real tool, an unknown tool
and a `None` placeholder, the invocation still returns an error-flagged
assessment. -/
theorem run_agent_contained_witness :
    ∃ a, _run_agent (fun _ => Except.ok "rows")
        (fun _ => Except.error "timeout") "cardiology"
        [some "search_symptoms", some "bogus_tool", none] = Except.ok a ∧
      a.agent = "cardiology" ∧
      ((∃ msg, Except.error "timeout" = Except.ok msg ∧ a.assessment = msg ∧
          a.error = false ∧
          a.tools_used = [some "search_symptoms", some "bogus_tool",
            (none : Option String)].reduceOption) ∨
       (∃ e, (Except.error "timeout" : Except String String) = Except.error e ∧
          a.assessment = "Agent error: " ++ e ∧ a.error = true)) :=
  run_agent_contained (fun _ => Except.ok "rows") (fun _ => Except.error "timeout")
    "cardiology" [some "search_symptoms", some "bogus_tool", none] (by decide)

end SensoryX
